import Mathlib

/-!
Verification of the gesture-to-shortcut renderer core.

`src/renderer.js` contains two concatenated variants of the renderer:
a simple one (maxNumHands 1, extension threshold 0.15, cooldown 1000 ms)
and an advanced one (maxNumHands 2, mouse control, pinch/zoom, cooldown
1500 ms).  The advanced variant's classifier (`detectGesture`), dispatcher
(`triggerKeyboardAction`) and per-frame handler (`hands.onResults`,
embedded as `processFrame`) are modelled below; the simple variant's
classifier is embedded as `detectGestureV1`.

Coordinates are normalized rationals.  The source computes Euclidean
distances with `Math.sqrt` and compares them against positive constant
thresholds; every such comparison `sqrt d ⋈ t` (with `t > 0`, `d ≥ 0`) is
transcribed as the equivalent `d ⋈ t^2` on the squared distance, which
keeps the classifier inside ℚ.  The one place where a *difference* of two
distances is compared (the two-hand zoom jitter test) cannot be squared
away, so there the genuine square root over ℝ is used
(`pinchPointsDistance`).  Each cascade branch condition is transcribed as
a named reducible abbreviation so individual rules can be reasoned about;
the abbreviations are definitionally the source's boolean conditions.
-/

/-- One normalized hand landmark point.  The source's optional depth `z` is
never read by classification and is omitted. -/
structure Landmark where
  x : ℚ
  y : ℚ

/-- A Landmark Frame: 21 points, indices fixed by anatomical convention
(0 wrist, 4 thumb tip, 8 index tip, 12 middle tip, 16 ring tip, 20 pinky
tip, 5/9/13/17 finger bases, 2 thumb MCP). -/
abbrev Frame := Fin 21 → Landmark

/-- Squared Euclidean distance; the source's `calculateDistance(p1, p2)`
is `Real.sqrt` of this. -/
def distSq (p1 p2 : Landmark) : ℚ := (p2.x - p1.x)^2 + (p2.y - p1.y)^2

/-- `fingersExtended[0]` of the source (thumb tip to wrist), squared. -/
def fingersExtendedSq0 (lm : Frame) : ℚ := distSq (lm 0) (lm 4)

/-- `fingersExtended[1]` of the source (index tip to wrist), squared. -/
def fingersExtendedSq1 (lm : Frame) : ℚ := distSq (lm 0) (lm 8)

/-- `fingersExtended[2]` of the source (middle tip to wrist), squared. -/
def fingersExtendedSq2 (lm : Frame) : ℚ := distSq (lm 0) (lm 12)

/-- `fingersExtended[3]` of the source (ring tip to wrist), squared. -/
def fingersExtendedSq3 (lm : Frame) : ℚ := distSq (lm 0) (lm 16)

/-- `fingersExtended[4]` of the source (pinky tip to wrist), squared. -/
def fingersExtendedSq4 (lm : Frame) : ℚ := distSq (lm 0) (lm 20)

/-- `fingerExtendedFromBase[1]` of the source (index tip to index base),
squared.  (Indices 0,2,3,4 of that array are computed but never read.) -/
def fingerExtendedFromBaseSq1 (lm : Frame) : ℚ := distSq (lm 8) (lm 5)

/-- `thumbIndexDistance` of the source, squared. -/
def thumbIndexDistanceSq (lm : Frame) : ℚ := distSq (lm 4) (lm 8)

/-- `fingerYOffset[1]`: `indexBase.y - indexTip.y`. -/
def fingerYOffset1 (lm : Frame) : ℚ := (lm 5).y - (lm 8).y

/-- `fingerYOffset[2]`: `middleBase.y - middleTip.y`. -/
def fingerYOffset2 (lm : Frame) : ℚ := (lm 9).y - (lm 12).y

/-- `fingerYOffset[3]`: `ringBase.y - ringTip.y`. -/
def fingerYOffset3 (lm : Frame) : ℚ := (lm 13).y - (lm 16).y

/-- `fingerYOffset[4]`: `pinkyBase.y - pinkyTip.y`. -/
def fingerYOffset4 (lm : Frame) : ℚ := (lm 17).y - (lm 20).y

/-- `fingersPointingUpCount` of the source: how many of the four non-thumb
fingers have a y-offset above 0.015. -/
def fingersPointingUpCount (lm : Frame) : ℕ :=
  (if fingerYOffset1 lm > 0.015 then 1 else 0) +
  (if fingerYOffset2 lm > 0.015 then 1 else 0) +
  (if fingerYOffset3 lm > 0.015 then 1 else 0) +
  (if fingerYOffset4 lm > 0.015 then 1 else 0)

/-- The advanced variant's Mouse Click condition (outer check conjoined
with the nested `fingerExtendedFromBase[1] > 0.07` check). -/
abbrev mouseClickCond (lm : Frame) : Prop :=
  fingersPointingUpCount lm = 1 ∧ fingerYOffset1 lm > 0.02 ∧ fingerYOffset2 lm < 0.01 ∧
  fingerYOffset3 lm < 0.01 ∧ fingerYOffset4 lm < 0.01 ∧
  thumbIndexDistanceSq lm < 0.05^2 ∧ fingerExtendedFromBaseSq1 lm > 0.07^2

/-- The advanced variant's Mouse Control condition (outer check conjoined
with the nested `fingerExtendedFromBase[1] > 0.07` check). -/
abbrev mouseControlCond (lm : Frame) : Prop :=
  fingersPointingUpCount lm = 1 ∧ fingerYOffset1 lm > 0.02 ∧ fingerYOffset2 lm < 0.01 ∧
  fingerYOffset3 lm < 0.01 ∧ fingerYOffset4 lm < 0.01 ∧
  fingerExtendedFromBaseSq1 lm > 0.07^2

/-- The advanced variant's Palm condition: four fingers pointing up and
every fingertip beyond 0.1 of the wrist. -/
abbrev palmCond (lm : Frame) : Prop :=
  fingersPointingUpCount lm = 4 ∧ fingersExtendedSq0 lm > 0.1^2 ∧
  fingersExtendedSq1 lm > 0.1^2 ∧ fingersExtendedSq2 lm > 0.1^2 ∧
  fingersExtendedSq3 lm > 0.1^2 ∧ fingersExtendedSq4 lm > 0.1^2

/-- The advanced variant's Three Fingers condition. -/
abbrev threeFingersCond (lm : Frame) : Prop :=
  fingersPointingUpCount lm = 3 ∧ fingerYOffset1 lm > 0.015 ∧ fingerYOffset2 lm > 0.015 ∧
  fingerYOffset3 lm > 0.015 ∧ fingerYOffset4 lm < 0.01

/-- The advanced variant's Victory Sign condition. -/
abbrev victoryCond (lm : Frame) : Prop :=
  fingersPointingUpCount lm = 2 ∧ fingerYOffset1 lm > 0.02 ∧ fingerYOffset2 lm > 0.02 ∧
  fingerYOffset3 lm < 0.01 ∧ fingerYOffset4 lm < 0.01

/-- The advanced variant's Pointing Up condition. -/
abbrev pointingUpCond (lm : Frame) : Prop :=
  fingersPointingUpCount lm = 1 ∧ fingerYOffset1 lm > 0.07 ∧ fingerYOffset2 lm < 0.01 ∧
  fingerYOffset3 lm < 0.01 ∧ fingerYOffset4 lm < 0.01

/-- The advanced variant's Finger Gun condition (`thumbUp`, `indexExtended`
and `otherFingersCurled`). -/
abbrev fingerGunCond (lm : Frame) : Prop :=
  (lm 4).y < (lm 0).y - 0.05 ∧ distSq (lm 8) (lm 0) > 0.15^2 ∧
  fingersExtendedSq2 lm < 0.12^2 ∧ fingersExtendedSq3 lm < 0.12^2 ∧
  fingersExtendedSq4 lm < 0.12^2

/-- The advanced variant's pinch condition: thumb-index distance below the
pinch threshold 0.07. -/
abbrev pinchOuterCond (lm : Frame) : Prop := thumbIndexDistanceSq lm < 0.07^2

/-- The advanced variant's refinement of a detected pinch: middle, ring
and pinky fingertips within 0.1 of the wrist distinguish "Pinch" from
"Zoom Pinch". -/
abbrev pinchInnerCond (lm : Frame) : Prop :=
  fingersExtendedSq2 lm < 0.1^2 ∧ fingersExtendedSq3 lm < 0.1^2 ∧ fingersExtendedSq4 lm < 0.1^2

/-- The advanced variant's Closed Fist condition: every fingertip within
0.1 of the wrist. -/
abbrev fistCond (lm : Frame) : Prop :=
  fingersExtendedSq0 lm < 0.1^2 ∧ fingersExtendedSq1 lm < 0.1^2 ∧
  fingersExtendedSq2 lm < 0.1^2 ∧ fingersExtendedSq3 lm < 0.1^2 ∧
  fingersExtendedSq4 lm < 0.1^2

/-- The advanced variant's Thumbs Up condition. -/
abbrev thumbsUpCond (lm : Frame) : Prop :=
  fingersExtendedSq0 lm > 0.1^2 ∧ fingersExtendedSq1 lm < 0.1^2 ∧
  fingersExtendedSq2 lm < 0.1^2 ∧ fingersExtendedSq3 lm < 0.1^2 ∧
  fingersExtendedSq4 lm < 0.1^2 ∧ (lm 4).y < (lm 0).y

/-- The advanced variant's Thumbs Down condition. -/
abbrev thumbsDownCond (lm : Frame) : Prop :=
  fingersExtendedSq0 lm > 0.1^2 ∧ fingersExtendedSq1 lm < 0.1^2 ∧
  fingersExtendedSq2 lm < 0.1^2 ∧ fingersExtendedSq3 lm < 0.1^2 ∧
  fingersExtendedSq4 lm < 0.1^2 ∧ (lm 4).y > (lm 0).y

/-- `detectGesture` of the advanced variant (src/renderer.js, second part):
the prioritized rule cascade.  The source's two nested mouse checks
(`if (outer) { if (inner) return ... }` falling through on a failed inner
check) are flattened to `outer ∧ inner`, which is equivalent because the
Mouse Click outer condition implies the Mouse Control outer condition and
both nested checks are the same comparison. -/
def detectGesture (lm : Frame) : String :=
  if mouseClickCond lm then "Mouse Click"
  else if mouseControlCond lm then "Mouse Control"
  else if palmCond lm then "Palm"
  else if threeFingersCond lm then "Three Fingers"
  else if victoryCond lm then "Victory Sign"
  else if pointingUpCond lm then "Pointing Up"
  else if fingerGunCond lm then "Finger Gun"
  else if pinchOuterCond lm then
    if pinchInnerCond lm then "Pinch" else "Zoom Pinch"
  else if fistCond lm then "Closed Fist"
  else if thumbsUpCond lm then "Thumbs Up"
  else if thumbsDownCond lm then "Thumbs Down"
  else "Unknown"

/-- The simple variant's Palm condition: every fingertip beyond 0.15 of
the wrist. -/
abbrev palmV1Cond (lm : Frame) : Prop :=
  fingersExtendedSq0 lm > 0.15^2 ∧ fingersExtendedSq1 lm > 0.15^2 ∧
  fingersExtendedSq2 lm > 0.15^2 ∧ fingersExtendedSq3 lm > 0.15^2 ∧
  fingersExtendedSq4 lm > 0.15^2

/-- The simple variant's Closed Fist condition: every fingertip within
0.15 of the wrist. -/
abbrev fistV1Cond (lm : Frame) : Prop :=
  fingersExtendedSq0 lm < 0.15^2 ∧ fingersExtendedSq1 lm < 0.15^2 ∧
  fingersExtendedSq2 lm < 0.15^2 ∧ fingersExtendedSq3 lm < 0.15^2 ∧
  fingersExtendedSq4 lm < 0.15^2

/-- The simple variant's Pointing Up condition. -/
abbrev pointingUpV1Cond (lm : Frame) : Prop :=
  fingersExtendedSq1 lm > 0.15^2 ∧ fingersExtendedSq0 lm < 0.15^2 ∧
  fingersExtendedSq2 lm < 0.15^2 ∧ fingersExtendedSq3 lm < 0.15^2 ∧
  fingersExtendedSq4 lm < 0.15^2

/-- The simple variant's Thumbs Up condition. -/
abbrev thumbsUpV1Cond (lm : Frame) : Prop :=
  fingersExtendedSq0 lm > 0.15^2 ∧ fingersExtendedSq1 lm < 0.15^2 ∧
  fingersExtendedSq2 lm < 0.15^2 ∧ fingersExtendedSq3 lm < 0.15^2 ∧
  fingersExtendedSq4 lm < 0.15^2 ∧ (lm 4).y < (lm 0).y

/-- The simple variant's Thumbs Down condition. -/
abbrev thumbsDownV1Cond (lm : Frame) : Prop :=
  fingersExtendedSq0 lm > 0.15^2 ∧ fingersExtendedSq1 lm < 0.15^2 ∧
  fingersExtendedSq2 lm < 0.15^2 ∧ fingersExtendedSq3 lm < 0.15^2 ∧
  fingersExtendedSq4 lm < 0.15^2 ∧ (lm 4).y > (lm 0).y

/-- `detectGesture` of the simple variant (src/renderer.js, first part):
extension threshold 0.15, five rules plus Unknown. -/
def detectGestureV1 (lm : Frame) : String :=
  if palmV1Cond lm then "Palm"
  else if fistV1Cond lm then "Closed Fist"
  else if pointingUpV1Cond lm then "Pointing Up"
  else if thumbsUpV1Cond lm then "Thumbs Up"
  else if thumbsDownV1Cond lm then "Thumbs Down"
  else "Unknown"

/-- Indexing into a raw landmark list as JavaScript does: an out-of-range
index yields `undefined`, whose `.x`/`.y` property access throws.  The
throw is modelled as `Except.error ()`. -/
def getLm (lms : List Landmark) (i : ℕ) : Except Unit Landmark :=
  match lms[i]? with
  | some p => Except.ok p
  | none => Except.error ()

/-- Rebuild a `Frame` from the eleven landmark indices the classifier
actually reads (all other slots are irrelevant to `detectGesture`). -/
def frameOfPoints (wrist thumbMcp thumbTip indexBase indexTip middleBase middleTip
    ringBase ringTip pinkyBase pinkyTip : Landmark) : Frame := fun i =>
  if i = 0 then wrist
  else if i = 2 then thumbMcp
  else if i = 4 then thumbTip
  else if i = 5 then indexBase
  else if i = 8 then indexTip
  else if i = 9 then middleBase
  else if i = 12 then middleTip
  else if i = 13 then ringBase
  else if i = 16 then ringTip
  else if i = 17 then pinkyBase
  else if i = 20 then pinkyTip
  else wrist

/-- `detectGesture` applied to a raw per-hand landmark list, exactly as
`hands.onResults` does: there is no length validation anywhere in the
source, so each landmark access can crash (`Except.error`) when the list
has fewer than 21 points.  Accesses are in the source's extraction order. -/
def detectGestureE (lms : List Landmark) : Except Unit String := do
  let wrist ← getLm lms 0
  let thumbTip ← getLm lms 4
  let indexTip ← getLm lms 8
  let middleTip ← getLm lms 12
  let ringTip ← getLm lms 16
  let pinkyTip ← getLm lms 20
  let indexBase ← getLm lms 5
  let middleBase ← getLm lms 9
  let ringBase ← getLm lms 13
  let pinkyBase ← getLm lms 17
  let thumbMcp ← getLm lms 2
  pure (detectGesture (frameOfPoints wrist thumbMcp thumbTip indexBase indexTip
    middleBase middleTip ringBase ringTip pinkyBase pinkyTip))

/-- Abstract commands sent over IPC to the main process. -/
inductive Command where
  | key : String → Command
  | moveMouse : ℚ → ℚ → Command
  | click : String → Command
deriving DecidableEq

/-- One entry of the advanced variant's `pinchPoints` array: the thumb tip
and index tip of a hand classified Pinch or Zoom Pinch. -/
structure PinchPoint where
  thumb : Landmark
  index : Landmark

/-- The session state surviving across frames: `lastGestureTime` (ms),
`lastPinchDistance` (a Euclidean distance, hence a real) and
`lastMousePosition` (screen coordinates). -/
structure SessionState where
  lastGestureTime : ℤ
  lastPinchDistance : Option ℝ
  lastMousePosition : Option (ℚ × ℚ)

/-- `MOUSE_SMOOTHING` of the advanced variant. -/
def MOUSE_SMOOTHING : ℚ := 0.7

/-- `GESTURE_COOLDOWN` of the advanced variant (ms). -/
def GESTURE_COOLDOWN : ℤ := 1500

/-- `triggerKeyboardAction` of the advanced variant: the IPC command the
switch sends (if any) paired with the `action` string it returns.  The
"Mouse Control" case sends nothing (cursor moves are emitted from the
onResults handler instead). -/
def triggerKeyboardAction (gesture : String) : Option Command × String :=
  if gesture = "Palm" then (some (Command.key "space"), "Spacebar pressed")
  else if gesture = "Closed Fist" then (some (Command.key "escape"), "Escape pressed")
  else if gesture = "Finger Gun" then (some (Command.key "tab"), "Tab pressed")
  else if gesture = "Thumbs Up" then (some (Command.key "enter"), "Enter pressed")
  else if gesture = "Victory Sign" then (some (Command.key "up"), "Page Up pressed")
  else if gesture = "Three Fingers" then (some (Command.key "down"), "Page Down pressed")
  else if gesture = "Pinch" then (some (Command.key "left"), "Arrow Left pressed")
  else if gesture = "Mouse Control" then (none, "Mouse control active")
  else if gesture = "Mouse Click" then (some (Command.click "left"), "Mouse click performed")
  else (none, "None")

/-- The mouse-control block at the top of the advanced variant's per-hand
loop body: for a hand in "Mouse Click" or "Mouse Control" pose, mirror the
index tip into screen coordinates, smooth against `lastMousePosition` when
a baseline exists (seeding it otherwise), emit the cursor move and store
the new baseline; for any other pose clear the baseline.  (Setting an
already-null `lastMousePosition` to null is written unconditionally here;
the source guards it with `else if (lastMousePosition)`, which has the
same effect.) -/
def mouseBlock (sw sh : ℚ) (lm : Frame) (gesture : String)
    (s : SessionState) (cmds : List Command) : SessionState × List Command :=
  if gesture = "Mouse Click" ∨ gesture = "Mouse Control" then
    let indexTip := lm 8
    let screenX := (1 - indexTip.x) * sw
    let screenY := indexTip.y * sh
    match s.lastMousePosition with
    | some pos =>
      let smoothedX := pos.1 + (screenX - pos.1) * (1 - MOUSE_SMOOTHING)
      let smoothedY := pos.2 + (screenY - pos.2) * (1 - MOUSE_SMOOTHING)
      ({ s with lastMousePosition := some (smoothedX, smoothedY) },
        cmds ++ [Command.moveMouse smoothedX smoothedY])
    | none =>
      ({ s with lastMousePosition := some (screenX, screenY) },
        cmds ++ [Command.moveMouse screenX screenY])
  else
    ({ s with lastMousePosition := none }, cmds)

/-- The per-hand body of the advanced variant's `hands.onResults` loop
(drawing and UI text omitted): the mouse-control block (emitting a cursor
move and updating/clearing `lastMousePosition`), the pinch-point
collection, and — only when exactly one hand is visible — the
cooldown-gated keyboard dispatch.  `numHands` is
`results.multiHandLandmarks.length`; `now` is `Date.now()`. -/
def processHand (sw sh : ℚ) (now : ℤ) (numHands : ℕ) (lm : Frame)
    (s : SessionState) (cmds : List Command) (pps : List PinchPoint) :
    SessionState × List Command × List PinchPoint :=
  let gesture := detectGesture lm
  let mouseRes := mouseBlock sw sh lm gesture s cmds
  let s1 := mouseRes.1
  let cmds1 := mouseRes.2
  let pps1 := if gesture = "Pinch" ∨ gesture = "Zoom Pinch" then
      pps ++ [⟨lm 4, lm 8⟩] else pps
  if numHands = 1 then
    if gesture = "Mouse Control" then
      (s1, cmds1 ++ (triggerKeyboardAction gesture).1.toList, pps1)
    else if now - s1.lastGestureTime > GESTURE_COOLDOWN then
      ({ s1 with lastGestureTime := now },
        cmds1 ++ (triggerKeyboardAction gesture).1.toList, pps1)
    else
      (s1, cmds1, pps1)
  else
    (s1, cmds1, pps1)

/-- Folding `processHand` over the hands of one video frame, in order. -/
def processHands (sw sh : ℚ) (now : ℤ) (numHands : ℕ) (hands : List Frame)
    (s : SessionState) (cmds : List Command) (pps : List PinchPoint) :
    SessionState × List Command × List PinchPoint :=
  match hands with
  | [] => (s, cmds, pps)
  | lm :: rest =>
    let r := processHand sw sh now numHands lm s cmds pps
    processHands sw sh now numHands rest r.1 r.2.1 r.2.2

/-- The distance the advanced variant's zoom check computes between the two
collected pinch points: the Euclidean distance between the two THUMB tips
(`pinchPoints[0].thumb` and `pinchPoints[1].thumb`). -/
noncomputable def pinchPointsDistance (p0 p1 : PinchPoint) : ℝ :=
  Real.sqrt (((p0.thumb.x - p1.thumb.x)^2 + (p0.thumb.y - p1.thumb.y)^2 : ℚ) : ℝ)

/-- One invocation of the advanced variant's `hands.onResults` callback
(canvas drawing and DOM updates omitted): per-hand processing followed by
the two-hand zoom check, returning the new session state and the IPC
commands sent this frame, in order.  With zero hands visible nothing is
touched. -/
noncomputable def processFrame (sw sh : ℚ) (now : ℤ) (hands : List Frame)
    (s : SessionState) : SessionState × List Command :=
  if hands.length > 0 then
    let r := processHands sw sh now hands.length hands s [] []
    let s1 := r.1
    let cmds := r.2.1
    match r.2.2 with
    | [p0, p1] =>
      if now - s1.lastGestureTime > GESTURE_COOLDOWN then
        let d := pinchPointsDistance p0 p1
        match s1.lastPinchDistance with
        | none => ({ s1 with lastPinchDistance := some d }, cmds)
        | some last =>
          if |d - last| > 0.03 then
            ({ s1 with lastGestureTime := now, lastPinchDistance := some d },
              cmds ++ [Command.key (if d - last > 0 then "zoom-in" else "zoom-out")])
          else
            (s1, cmds)
      else
        (s1, cmds)
    | _ => ({ s1 with lastPinchDistance := none }, cmds)
  else
    (s, [])

/-- Symmetry of the squared distance. -/
lemma distSq_comm (p q : Landmark) : distSq p q = distSq q p := by
  unfold distSq; ring

/-- The source's `indexExtended` check measures the same quantity as
`fingersExtended[1]`, with the arguments swapped. -/
lemma indexExtended_eq (lm : Frame) : distSq (lm 8) (lm 0) = fingersExtendedSq1 lm := by
  unfold fingersExtendedSq1; exact distSq_comm _ _

/-- The index tip-to-base distance dominates the index y-offset. -/
lemma fingerExtendedFromBaseSq1_ge (lm : Frame) :
    fingerExtendedFromBaseSq1 lm ≥ fingerYOffset1 lm ^ 2 := by
  unfold fingerExtendedFromBaseSq1 fingerYOffset1 distSq
  nlinarith [sq_nonneg ((lm 5).x - (lm 8).x)]

/-- A degenerate frame with every landmark at (0.5, 0.5): all fingertip-to-
wrist distances are 0, i.e. far below every extension threshold. -/
def pinchFistFrame : Frame := fun _ => ⟨0.5, 0.5⟩

/-- A frame with the index finger raised and extended and the thumb 0.06
from the index tip: both the Pinch predicate and the Closed Fist predicate
hold, yet the cascade classifies it as Mouse Control. -/
def mouseControlPinchFrame : Frame := fun i =>
  if i = 4 then ⟨0.5, 0.51⟩
  else if i = 8 then ⟨0.5, 0.45⟩
  else if i = 5 then ⟨0.5, 0.55⟩
  else ⟨0.5, 0.5⟩

/-- A spread hand held flat: every fingertip is far (> 0.15) from the
wrist but no finger is "pointing up" (all y-offsets are 0). -/
def palmSpreadDownFrame : Frame := fun i =>
  if i = 4 then ⟨0.3, 0.5⟩
  else if i = 8 ∨ i = 5 then ⟨0.7, 0.5⟩
  else if i = 12 ∨ i = 9 then ⟨0.5, 0.7⟩
  else if i = 16 ∨ i = 13 then ⟨0.5, 0.3⟩
  else if i = 20 ∨ i = 17 then ⟨0.3, 0.3⟩
  else ⟨0.5, 0.5⟩

/-- A curled hand with the thumb and index tips 0.08 apart: all fingertips
within 0.04 of the wrist, no finger raised, no pinch. -/
def fistOnlyFrame : Frame := fun i =>
  if i = 4 then ⟨0.46, 0.5⟩
  else if i = 8 ∨ i = 5 then ⟨0.54, 0.5⟩
  else ⟨0.5, 0.5⟩

/-- An open upright palm: all five fingertips far from the wrist and all
four non-thumb fingers raised well above their bases. -/
def palmUpFrame : Frame := fun i =>
  if i = 4 then ⟨0.3, 0.6⟩
  else if i = 8 then ⟨0.42, 0.55⟩
  else if i = 5 then ⟨0.42, 0.7⟩
  else if i = 12 then ⟨0.5, 0.5⟩
  else if i = 9 then ⟨0.5, 0.68⟩
  else if i = 16 then ⟨0.58, 0.55⟩
  else if i = 13 then ⟨0.58, 0.7⟩
  else if i = 20 then ⟨0.7, 0.6⟩
  else if i = 17 then ⟨0.7, 0.72⟩
  else ⟨0.5, 0.8⟩

/-- A left hand pinching: thumb tip at x = 0.2. -/
def pinchA : Frame := fun i =>
  if i = 4 then ⟨0.2, 0.5⟩
  else if i = 8 ∨ i = 5 then ⟨0.15, 0.5⟩
  else ⟨0.2, 0.55⟩

/-- A right hand pinching: thumb tip at x = 0.9 (thumb-to-thumb distance
0.7 from `pinchA`). -/
def pinchB : Frame := fun i =>
  if i = 4 then ⟨0.9, 0.5⟩
  else if i = 8 ∨ i = 5 then ⟨0.95, 0.5⟩
  else ⟨0.9, 0.55⟩

/-- A right hand pinching: thumb tip at x = 0.8 (thumb-to-thumb distance
0.6 from `pinchA`, while the midpoint-to-midpoint distance is 0.65). -/
def pinchBNear : Frame := fun i =>
  if i = 4 then ⟨0.8, 0.5⟩
  else if i = 8 ∨ i = 5 then ⟨0.85, 0.5⟩
  else ⟨0.8, 0.55⟩

lemma dg_pinchFistFrame : detectGesture pinchFistFrame = "Pinch" := by
  norm_num +decide [detectGesture, mouseClickCond, mouseControlCond, palmCond,
    threeFingersCond, victoryCond, pointingUpCond, fingerGunCond, pinchOuterCond,
    pinchInnerCond, fistCond, thumbsUpCond, thumbsDownCond, fingersPointingUpCount,
    fingersExtendedSq0, fingersExtendedSq1, fingersExtendedSq2, fingersExtendedSq3,
    fingersExtendedSq4, fingerExtendedFromBaseSq1, thumbIndexDistanceSq, fingerYOffset1,
    fingerYOffset2, fingerYOffset3, fingerYOffset4, distSq, pinchFistFrame]

lemma dg_mouseControlPinchFrame : detectGesture mouseControlPinchFrame = "Mouse Control" := by
  norm_num +decide [detectGesture, mouseClickCond, mouseControlCond, palmCond,
    threeFingersCond, victoryCond, pointingUpCond, fingerGunCond, pinchOuterCond,
    pinchInnerCond, fistCond, thumbsUpCond, thumbsDownCond, fingersPointingUpCount,
    fingersExtendedSq0, fingersExtendedSq1, fingersExtendedSq2, fingersExtendedSq3,
    fingersExtendedSq4, fingerExtendedFromBaseSq1, thumbIndexDistanceSq, fingerYOffset1,
    fingerYOffset2, fingerYOffset3, fingerYOffset4, distSq, mouseControlPinchFrame]

lemma dg_palmSpreadDownFrame : detectGesture palmSpreadDownFrame = "Unknown" := by
  norm_num +decide [detectGesture, mouseClickCond, mouseControlCond, palmCond,
    threeFingersCond, victoryCond, pointingUpCond, fingerGunCond, pinchOuterCond,
    pinchInnerCond, fistCond, thumbsUpCond, thumbsDownCond, fingersPointingUpCount,
    fingersExtendedSq0, fingersExtendedSq1, fingersExtendedSq2, fingersExtendedSq3,
    fingersExtendedSq4, fingerExtendedFromBaseSq1, thumbIndexDistanceSq, fingerYOffset1,
    fingerYOffset2, fingerYOffset3, fingerYOffset4, distSq, palmSpreadDownFrame]

lemma dg_fistOnlyFrame : detectGesture fistOnlyFrame = "Closed Fist" := by
  norm_num +decide [detectGesture, mouseClickCond, mouseControlCond, palmCond,
    threeFingersCond, victoryCond, pointingUpCond, fingerGunCond, pinchOuterCond,
    pinchInnerCond, fistCond, thumbsUpCond, thumbsDownCond, fingersPointingUpCount,
    fingersExtendedSq0, fingersExtendedSq1, fingersExtendedSq2, fingersExtendedSq3,
    fingersExtendedSq4, fingerExtendedFromBaseSq1, thumbIndexDistanceSq, fingerYOffset1,
    fingerYOffset2, fingerYOffset3, fingerYOffset4, distSq, fistOnlyFrame]

lemma dg_palmUpFrame : detectGesture palmUpFrame = "Palm" := by
  norm_num +decide [detectGesture, mouseClickCond, mouseControlCond, palmCond,
    threeFingersCond, victoryCond, pointingUpCond, fingerGunCond, pinchOuterCond,
    pinchInnerCond, fistCond, thumbsUpCond, thumbsDownCond, fingersPointingUpCount,
    fingersExtendedSq0, fingersExtendedSq1, fingersExtendedSq2, fingersExtendedSq3,
    fingersExtendedSq4, fingerExtendedFromBaseSq1, thumbIndexDistanceSq, fingerYOffset1,
    fingerYOffset2, fingerYOffset3, fingerYOffset4, distSq, palmUpFrame]

lemma dg_pinchA : detectGesture pinchA = "Pinch" := by
  norm_num +decide [detectGesture, mouseClickCond, mouseControlCond, palmCond,
    threeFingersCond, victoryCond, pointingUpCond, fingerGunCond, pinchOuterCond,
    pinchInnerCond, fistCond, thumbsUpCond, thumbsDownCond, fingersPointingUpCount,
    fingersExtendedSq0, fingersExtendedSq1, fingersExtendedSq2, fingersExtendedSq3,
    fingersExtendedSq4, fingerExtendedFromBaseSq1, thumbIndexDistanceSq, fingerYOffset1,
    fingerYOffset2, fingerYOffset3, fingerYOffset4, distSq, pinchA]

lemma dg_pinchB : detectGesture pinchB = "Pinch" := by
  norm_num +decide [detectGesture, mouseClickCond, mouseControlCond, palmCond,
    threeFingersCond, victoryCond, pointingUpCond, fingerGunCond, pinchOuterCond,
    pinchInnerCond, fistCond, thumbsUpCond, thumbsDownCond, fingersPointingUpCount,
    fingersExtendedSq0, fingersExtendedSq1, fingersExtendedSq2, fingersExtendedSq3,
    fingersExtendedSq4, fingerExtendedFromBaseSq1, thumbIndexDistanceSq, fingerYOffset1,
    fingerYOffset2, fingerYOffset3, fingerYOffset4, distSq, pinchB]

lemma dg_pinchBNear : detectGesture pinchBNear = "Pinch" := by
  norm_num +decide [detectGesture, mouseClickCond, mouseControlCond, palmCond,
    threeFingersCond, victoryCond, pointingUpCond, fingerGunCond, pinchOuterCond,
    pinchInnerCond, fistCond, thumbsUpCond, thumbsDownCond, fingersPointingUpCount,
    fingersExtendedSq0, fingersExtendedSq1, fingersExtendedSq2, fingersExtendedSq3,
    fingersExtendedSq4, fingerExtendedFromBaseSq1, thumbIndexDistanceSq, fingerYOffset1,
    fingerYOffset2, fingerYOffset3, fingerYOffset4, distSq, pinchBNear]

/-- C1 counterexample: this frame satisfies the Pinch predicate
(thumb-index distance below 0.07; middle, ring, pinky within 0.1 of the
wrist) and the Closed Fist predicate (all five fingertips within 0.1 of
the wrist), yet `detectGesture` returns "Mouse Control", not "Pinch",
because the mouse-control check precedes the pinch check. -/
theorem C1_pinch_priority_cex :
    thumbIndexDistanceSq mouseControlPinchFrame < 0.07^2 ∧
    fingersExtendedSq0 mouseControlPinchFrame < 0.1^2 ∧
    fingersExtendedSq1 mouseControlPinchFrame < 0.1^2 ∧
    fingersExtendedSq2 mouseControlPinchFrame < 0.1^2 ∧
    fingersExtendedSq3 mouseControlPinchFrame < 0.1^2 ∧
    fingersExtendedSq4 mouseControlPinchFrame < 0.1^2 ∧
    detectGesture mouseControlPinchFrame = "Mouse Control" := by
  refine ⟨?_, ?_, ?_, ?_, ?_, ?_, dg_mouseControlPinchFrame⟩ <;>
    norm_num +decide [thumbIndexDistanceSq, fingersExtendedSq0, fingersExtendedSq1,
      fingersExtendedSq2, fingersExtendedSq3, fingersExtendedSq4, distSq,
      mouseControlPinchFrame]

/-- C1 (amended): a frame satisfying both the Pinch predicate and the
Closed Fist predicate never classifies as "Closed Fist" (the pinch check
does precede the fist check); it classifies as "Pinch" unless one of the
earlier, more specific cascade branches (Mouse Click, Mouse Control,
Three Fingers, Victory Sign) matches first. -/
theorem C1_pinch_priority_amended (lm : Frame)
    (hp : thumbIndexDistanceSq lm < 0.07^2)
    (h0 : fingersExtendedSq0 lm < 0.1^2) (h1 : fingersExtendedSq1 lm < 0.1^2)
    (h2 : fingersExtendedSq2 lm < 0.1^2) (h3 : fingersExtendedSq3 lm < 0.1^2)
    (h4 : fingersExtendedSq4 lm < 0.1^2) :
    detectGesture lm ≠ "Closed Fist" ∧
      (detectGesture lm = "Pinch" ∨ detectGesture lm = "Mouse Click" ∨
       detectGesture lm = "Mouse Control" ∨ detectGesture lm = "Three Fingers" ∨
       detectGesture lm = "Victory Sign") := by
  have hnPalm : ¬ palmCond lm := by
    rintro ⟨-, hg, -⟩; linarith
  have hnGun : ¬ fingerGunCond lm := by
    rintro ⟨-, hg, -⟩
    rw [indexExtended_eq] at hg; linarith
  unfold detectGesture
  by_cases hA : mouseClickCond lm
  · rw [if_pos hA]; exact ⟨by decide, by simp⟩
  · rw [if_neg hA]
    by_cases hB : mouseControlCond lm
    · rw [if_pos hB]; exact ⟨by decide, by simp⟩
    · rw [if_neg hB, if_neg hnPalm]
      by_cases hD : threeFingersCond lm
      · rw [if_pos hD]; exact ⟨by decide, by simp⟩
      · rw [if_neg hD]
        by_cases hE : victoryCond lm
        · rw [if_pos hE]; exact ⟨by decide, by simp⟩
        · rw [if_neg hE]
          have hnPoint : ¬ pointingUpCond lm := by
            rintro ⟨hc1, hc2, hc3, hc4, hc5⟩
            have hfeb := fingerExtendedFromBaseSq1_ge lm
            exact hB ⟨hc1, by linarith, hc3, hc4, hc5,
              by nlinarith [sq_nonneg (fingerYOffset1 lm - 0.07)]⟩
          rw [if_neg hnPoint, if_neg hnGun, if_pos (show pinchOuterCond lm from hp),
            if_pos (show pinchInnerCond lm from ⟨h2, h3, h4⟩)]
          exact ⟨by decide, by simp⟩

/-- C1 witness: the degenerate all-points-equal frame satisfies both
predicates and indeed classifies as "Pinch", not "Closed Fist". -/
theorem C1_pinch_priority_amended_witness :
    detectGesture pinchFistFrame ≠ "Closed Fist" ∧
      (detectGesture pinchFistFrame = "Pinch" ∨ detectGesture pinchFistFrame = "Mouse Click" ∨
       detectGesture pinchFistFrame = "Mouse Control" ∨
       detectGesture pinchFistFrame = "Three Fingers" ∨
       detectGesture pinchFistFrame = "Victory Sign") := by
  apply C1_pinch_priority_amended <;>
    norm_num +decide [thumbIndexDistanceSq, fingersExtendedSq0, fingersExtendedSq1,
      fingersExtendedSq2, fingersExtendedSq3, fingersExtendedSq4, distSq, pinchFistFrame]

/-- C2 counterexample: in the degenerate frame all five fingertip-to-wrist
distances are 0, far below the advanced variant's extension threshold 0.1,
yet `detectGesture` returns "Pinch" (the pinch branch fires first), not
"Closed Fist". -/
theorem C2_closed_fist_cex :
    fingersExtendedSq0 pinchFistFrame < 0.1^2 ∧
    fingersExtendedSq1 pinchFistFrame < 0.1^2 ∧
    fingersExtendedSq2 pinchFistFrame < 0.1^2 ∧
    fingersExtendedSq3 pinchFistFrame < 0.1^2 ∧
    fingersExtendedSq4 pinchFistFrame < 0.1^2 ∧
    detectGesture pinchFistFrame = "Pinch" := by
  refine ⟨?_, ?_, ?_, ?_, ?_, dg_pinchFistFrame⟩ <;>
    norm_num +decide [fingersExtendedSq0, fingersExtendedSq1, fingersExtendedSq2,
      fingersExtendedSq3, fingersExtendedSq4, distSq, pinchFistFrame]

/-- C2 (amended): in the simple variant, all five fingertip-to-wrist
distances below its 0.15 extension threshold yield "Closed Fist"
unconditionally.  In the advanced variant (threshold 0.1) the distances
alone do not suffice: the classifier returns "Closed Fist" provided no
earlier cascade branch can fire, for which it is sufficient that no
finger y-offset exceeds the 0.015 raise threshold and the thumb-index
distance is at least the 0.07 pinch threshold. -/
theorem C2_closed_fist_amended :
    (∀ lm : Frame,
      fingersExtendedSq0 lm < 0.15^2 → fingersExtendedSq1 lm < 0.15^2 →
      fingersExtendedSq2 lm < 0.15^2 → fingersExtendedSq3 lm < 0.15^2 →
      fingersExtendedSq4 lm < 0.15^2 → detectGestureV1 lm = "Closed Fist") ∧
    (∀ lm : Frame,
      fingersExtendedSq0 lm < 0.1^2 → fingersExtendedSq1 lm < 0.1^2 →
      fingersExtendedSq2 lm < 0.1^2 → fingersExtendedSq3 lm < 0.1^2 →
      fingersExtendedSq4 lm < 0.1^2 →
      fingerYOffset1 lm ≤ 0.015 → fingerYOffset2 lm ≤ 0.015 →
      fingerYOffset3 lm ≤ 0.015 → fingerYOffset4 lm ≤ 0.015 →
      thumbIndexDistanceSq lm ≥ 0.07^2 → detectGesture lm = "Closed Fist") := by
  constructor
  · intro lm h0 h1 h2 h3 h4
    have hnPalm : ¬ palmV1Cond lm := by
      rintro ⟨hg, -⟩; linarith
    unfold detectGestureV1
    rw [if_neg hnPalm, if_pos (show fistV1Cond lm from ⟨h0, h1, h2, h3, h4⟩)]
  · intro lm h0 h1 h2 h3 h4 hy1 hy2 hy3 hy4 hp
    have hcount : fingersPointingUpCount lm = 0 := by
      unfold fingersPointingUpCount
      rw [if_neg (not_lt.mpr hy1), if_neg (not_lt.mpr hy2), if_neg (not_lt.mpr hy3),
        if_neg (not_lt.mpr hy4)]
    have hnClick : ¬ mouseClickCond lm := by
      rintro ⟨hc, -⟩; rw [hcount] at hc; exact absurd hc (by decide)
    have hnControl : ¬ mouseControlCond lm := by
      rintro ⟨hc, -⟩; rw [hcount] at hc; exact absurd hc (by decide)
    have hnPalm : ¬ palmCond lm := by
      rintro ⟨hc, -⟩; rw [hcount] at hc; exact absurd hc (by decide)
    have hnThree : ¬ threeFingersCond lm := by
      rintro ⟨hc, -⟩; rw [hcount] at hc; exact absurd hc (by decide)
    have hnVictory : ¬ victoryCond lm := by
      rintro ⟨hc, -⟩; rw [hcount] at hc; exact absurd hc (by decide)
    have hnPoint : ¬ pointingUpCond lm := by
      rintro ⟨hc, -⟩; rw [hcount] at hc; exact absurd hc (by decide)
    have hnGun : ¬ fingerGunCond lm := by
      rintro ⟨-, hg, -⟩; rw [indexExtended_eq] at hg; linarith
    have hnPinch : ¬ pinchOuterCond lm := not_lt.mpr hp
    unfold detectGesture
    rw [if_neg hnClick, if_neg hnControl, if_neg hnPalm, if_neg hnThree, if_neg hnVictory,
      if_neg hnPoint, if_neg hnGun, if_neg hnPinch,
      if_pos (show fistCond lm from ⟨h0, h1, h2, h3, h4⟩)]

/-- C2 witness: a curled hand (thumb and index 0.08 apart, everything near
the wrist) classifies as "Closed Fist" in both variants, discharging both
hypothesis sets. -/
theorem C2_closed_fist_amended_witness :
    detectGestureV1 fistOnlyFrame = "Closed Fist" ∧
    detectGesture fistOnlyFrame = "Closed Fist" := by
  constructor
  · apply C2_closed_fist_amended.1 fistOnlyFrame <;>
      norm_num +decide [fingersExtendedSq0, fingersExtendedSq1, fingersExtendedSq2,
        fingersExtendedSq3, fingersExtendedSq4, distSq, fistOnlyFrame]
  · apply C2_closed_fist_amended.2 fistOnlyFrame <;>
      norm_num +decide [fingersExtendedSq0, fingersExtendedSq1, fingersExtendedSq2,
        fingersExtendedSq3, fingersExtendedSq4, fingerYOffset1, fingerYOffset2,
        fingerYOffset3, fingerYOffset4, thumbIndexDistanceSq, distSq, fistOnlyFrame]

/-- C9 counterexample: a spread hand held flat has all five fingertip-to-
wrist distances above even the simple variant's 0.15 threshold, yet the
advanced classifier returns "Unknown", not "Palm", because its Palm rule
additionally requires all four non-thumb fingers to point up. -/
theorem C9_palm_cex :
    fingersExtendedSq0 palmSpreadDownFrame > 0.15^2 ∧
    fingersExtendedSq1 palmSpreadDownFrame > 0.15^2 ∧
    fingersExtendedSq2 palmSpreadDownFrame > 0.15^2 ∧
    fingersExtendedSq3 palmSpreadDownFrame > 0.15^2 ∧
    fingersExtendedSq4 palmSpreadDownFrame > 0.15^2 ∧
    detectGesture palmSpreadDownFrame = "Unknown" := by
  refine ⟨?_, ?_, ?_, ?_, ?_, dg_palmSpreadDownFrame⟩ <;>
    norm_num +decide [fingersExtendedSq0, fingersExtendedSq1, fingersExtendedSq2,
      fingersExtendedSq3, fingersExtendedSq4, distSq, palmSpreadDownFrame]

/-- C9 (amended): in the simple variant, all five fingertip-to-wrist
distances above its 0.15 extension threshold yield "Palm"
unconditionally.  In the advanced variant the distances alone (above its
0.1 threshold) do not suffice: the classifier returns "Palm" provided
additionally all four non-thumb fingers point up (y-offset above
0.015). -/
theorem C9_palm_amended :
    (∀ lm : Frame,
      fingersExtendedSq0 lm > 0.15^2 → fingersExtendedSq1 lm > 0.15^2 →
      fingersExtendedSq2 lm > 0.15^2 → fingersExtendedSq3 lm > 0.15^2 →
      fingersExtendedSq4 lm > 0.15^2 → detectGestureV1 lm = "Palm") ∧
    (∀ lm : Frame,
      fingersExtendedSq0 lm > 0.1^2 → fingersExtendedSq1 lm > 0.1^2 →
      fingersExtendedSq2 lm > 0.1^2 → fingersExtendedSq3 lm > 0.1^2 →
      fingersExtendedSq4 lm > 0.1^2 →
      fingerYOffset1 lm > 0.015 → fingerYOffset2 lm > 0.015 →
      fingerYOffset3 lm > 0.015 → fingerYOffset4 lm > 0.015 →
      detectGesture lm = "Palm") := by
  constructor
  · intro lm h0 h1 h2 h3 h4
    unfold detectGestureV1
    rw [if_pos (show palmV1Cond lm from ⟨h0, h1, h2, h3, h4⟩)]
  · intro lm h0 h1 h2 h3 h4 hy1 hy2 hy3 hy4
    have hcount : fingersPointingUpCount lm = 4 := by
      unfold fingersPointingUpCount
      rw [if_pos hy1, if_pos hy2, if_pos hy3, if_pos hy4]
    have hnClick : ¬ mouseClickCond lm := by
      rintro ⟨hc, -⟩; rw [hcount] at hc; exact absurd hc (by decide)
    have hnControl : ¬ mouseControlCond lm := by
      rintro ⟨hc, -⟩; rw [hcount] at hc; exact absurd hc (by decide)
    unfold detectGesture
    rw [if_neg hnClick, if_neg hnControl,
      if_pos (show palmCond lm from ⟨hcount, h0, h1, h2, h3, h4⟩)]

/-- C9 witness: an upright open palm classifies as "Palm" in both
variants, discharging both hypothesis sets. -/
theorem C9_palm_amended_witness :
    detectGestureV1 palmUpFrame = "Palm" ∧ detectGesture palmUpFrame = "Palm" := by
  constructor
  · apply C9_palm_amended.1 palmUpFrame <;>
      norm_num +decide [fingersExtendedSq0, fingersExtendedSq1, fingersExtendedSq2,
        fingersExtendedSq3, fingersExtendedSq4, distSq, palmUpFrame]
  · apply C9_palm_amended.2 palmUpFrame <;>
      norm_num +decide [fingersExtendedSq0, fingersExtendedSq1, fingersExtendedSq2,
        fingersExtendedSq3, fingersExtendedSq4, fingerYOffset1, fingerYOffset2,
        fingerYOffset3, fingerYOffset4, distSq, palmUpFrame]

/-- Binding a failed `Except` computation short-circuits. -/
lemma except_error_bind {ε : Type u} {α β : Type v} (e : ε) (f : α → Except ε β) :
    (Except.error e >>= f) = (Except.error e : Except ε β) := rfl

/-- Binding a successful `Except` computation applies the continuation. -/
lemma except_ok_bind {ε : Type u} {α β : Type v} (a : α) (f : α → Except ε β) :
    (Except.ok a >>= f) = f a := rfl

/-- C8: the source never validates the landmark count, so classifying any
per-hand input with fewer than 21 points reads an out-of-range index
(JavaScript `undefined`) and crashes on the property access, modelled as
`Except.error`; nothing rejects the hand before classification. -/
theorem C8_short_frame_crash (lms : List Landmark) (h : lms.length < 21) :
    detectGestureE lms = Except.error () := by
  have h20 : lms[20]? = none := by
    rw [List.getElem?_eq_none_iff]; omega
  rcases h0 : lms[0]? with _ | p0 <;>
  rcases h4 : lms[4]? with _ | p4 <;>
  rcases h8 : lms[8]? with _ | p8 <;>
  rcases h12 : lms[12]? with _ | p12 <;>
  rcases h16 : lms[16]? with _ | p16 <;>
  simp [detectGestureE, getLm, h0, h4, h8, h12, h16, h20, except_error_bind, except_ok_bind]

/-- C8 witness: a 20-point hand (one landmark short) crashes the
classifier. -/
theorem C8_short_frame_crash_witness :
    (List.replicate 20 (⟨0.5, 0.5⟩ : Landmark)).length < 21 ∧
    detectGestureE (List.replicate 20 ⟨0.5, 0.5⟩) = Except.error () :=
  ⟨by simp, C8_short_frame_crash _ (by simp)⟩

/-- C7 counterexample: processing a zero-hand frame leaves a non-null
`lastPinchDistance` and `lastMousePosition` untouched — they are NOT reset
to null as the claim states (the resets live inside the hands-present
branch). -/
theorem C7_tracking_loss_cex :
    (processFrame 1 1 999 [] ⟨123, some 0.6, some (3, 4)⟩).1.lastPinchDistance = some 0.6 ∧
    (processFrame 1 1 999 [] ⟨123, some 0.6, some (3, 4)⟩).1.lastMousePosition = some (3, 4) ∧
    (processFrame 1 1 999 [] ⟨123, some 0.6, some (3, 4)⟩).2 = [] :=
  ⟨rfl, rfl, rfl⟩

/-- C7 (amended): on a zero-hand frame the advanced variant's handler
leaves the ENTIRE session state unchanged and emits nothing: the cooldown
timestamp is indeed untouched, but `lastPinchDistance` and
`lastMousePosition` are not reset either — those resets happen only on
frames with at least one visible hand (when fewer than two pinch
candidates exist, resp. when a visible hand is not in a mouse pose). -/
theorem C7_tracking_loss_amended (sw sh : ℚ) (now : ℤ) (s : SessionState) :
    processFrame sw sh now [] s = (s, []) := rfl

/-- Full evaluation of a one-hand frame whose gesture is neither mouse
pose: the mouse baseline is cleared, at most one pinch point is collected
(so the zoom check resets `lastPinchDistance`), and the keyboard dispatch
runs exactly when the cooldown has elapsed — in which case the timestamp
is stamped whether or not the gesture maps to a command. -/
lemma processFrame_single (sw sh : ℚ) (now : ℤ) (lm : Frame) (s : SessionState)
    (hg1 : detectGesture lm ≠ "Mouse Control") (hg2 : detectGesture lm ≠ "Mouse Click") :
    processFrame sw sh now [lm] s =
      if now - s.lastGestureTime > GESTURE_COOLDOWN then
        (⟨now, none, none⟩, (triggerKeyboardAction (detectGesture lm)).1.toList)
      else
        (⟨s.lastGestureTime, none, none⟩, []) := by
  have hmc : ¬(detectGesture lm = "Mouse Click" ∨ detectGesture lm = "Mouse Control") := by
    rintro (h | h)
    · exact hg2 h
    · exact hg1 h
  by_cases hpinch : (detectGesture lm = "Pinch" ∨ detectGesture lm = "Zoom Pinch") <;>
  by_cases hc : now - s.lastGestureTime > GESTURE_COOLDOWN <;>
  simp [processFrame, processHands, processHand, mouseBlock, hmc, hg1, hg2, hpinch, hc]

/-- C4 counterexample: a one-hand frame classified "Unknown" dispatches no
command (`triggerKeyboardAction` has no case for it), yet with the
cooldown elapsed the handler still stamps `lastGestureTime` with the
current time (0 becomes 2000). -/
theorem C4_cooldown_stamp_cex :
    (processFrame 1 1 2000 [palmSpreadDownFrame] ⟨0, none, none⟩).2 = [] ∧
    (processFrame 1 1 2000 [palmSpreadDownFrame] ⟨0, none, none⟩).1.lastGestureTime = 2000 := by
  rw [processFrame_single 1 1 2000 palmSpreadDownFrame ⟨0, none, none⟩
    (by rw [dg_palmSpreadDownFrame]; decide) (by rw [dg_palmSpreadDownFrame]; decide)]
  rw [if_pos (by decide)]
  exact ⟨by rw [dg_palmSpreadDownFrame]; rfl, rfl⟩

/-- C4 (amended): on a one-hand frame whose gesture is neither mouse pose,
`lastGestureTime` is stamped with the frame time exactly when the cooldown
has elapsed — regardless of whether the gesture dispatches any action (it
is stamped even for "Unknown" or other unmapped labels) — and is left
unchanged while the cooldown is active. -/
theorem C4_cooldown_stamp_amended (sw sh : ℚ) (now : ℤ) (lm : Frame) (s : SessionState)
    (hg1 : detectGesture lm ≠ "Mouse Control") (hg2 : detectGesture lm ≠ "Mouse Click") :
    (now - s.lastGestureTime > GESTURE_COOLDOWN →
      (processFrame sw sh now [lm] s).1.lastGestureTime = now) ∧
    (¬(now - s.lastGestureTime > GESTURE_COOLDOWN) →
      (processFrame sw sh now [lm] s).1.lastGestureTime = s.lastGestureTime) := by
  rw [processFrame_single sw sh now lm s hg1 hg2]
  constructor
  · intro hc; rw [if_pos hc]
  · intro hc; rw [if_neg hc]

/-- C4 witness: with the cooldown elapsed, an "Unknown" one-hand frame at
time 5000 stamps `lastGestureTime` from 100 to 5000 although it dispatches
nothing. -/
theorem C4_cooldown_stamp_amended_witness :
    (processFrame 1 1 5000 [palmSpreadDownFrame] ⟨100, none, none⟩).1.lastGestureTime = 5000 :=
  (C4_cooldown_stamp_amended 1 1 5000 palmSpreadDownFrame ⟨100, none, none⟩
    (by rw [dg_palmSpreadDownFrame]; decide) (by rw [dg_palmSpreadDownFrame]; decide)).1
    (by decide)

/-- C5: debounce window.  If the cooldown timestamp is `t0` and the same
discrete, mapped, non-mouse gesture is presented with no intervening
processed frames, then at `t0 + (cooldown - 1)` nothing is dispatched and
the timestamp is unchanged, while at `t0 + (cooldown + 1)` exactly the
mapped command is dispatched and the timestamp is re-stamped. -/
theorem C5_debounce_window (sw sh : ℚ) (t0 : ℤ) (lm : Frame) (s : SessionState)
    (hlgt : s.lastGestureTime = t0)
    (hg1 : detectGesture lm ≠ "Mouse Control") (hg2 : detectGesture lm ≠ "Mouse Click")
    (c : Command) (hcmd : (triggerKeyboardAction (detectGesture lm)).1 = some c) :
    (processFrame sw sh (t0 + (GESTURE_COOLDOWN - 1)) [lm] s).2 = [] ∧
    (processFrame sw sh (t0 + (GESTURE_COOLDOWN - 1)) [lm] s).1.lastGestureTime = t0 ∧
    (processFrame sw sh (t0 + (GESTURE_COOLDOWN + 1)) [lm] s).2 = [c] ∧
    (processFrame sw sh (t0 + (GESTURE_COOLDOWN + 1)) [lm] s).1.lastGestureTime =
      t0 + (GESTURE_COOLDOWN + 1) := by
  rw [processFrame_single sw sh (t0 + (GESTURE_COOLDOWN - 1)) lm s hg1 hg2,
    processFrame_single sw sh (t0 + (GESTURE_COOLDOWN + 1)) lm s hg1 hg2, hlgt]
  have hc1 : ¬(t0 + (GESTURE_COOLDOWN - 1) - t0 > GESTURE_COOLDOWN) := by
    unfold GESTURE_COOLDOWN; omega
  have hc2 : t0 + (GESTURE_COOLDOWN + 1) - t0 > GESTURE_COOLDOWN := by
    unfold GESTURE_COOLDOWN; omega
  rw [if_neg hc1, if_pos hc2, hcmd]
  exact ⟨rfl, rfl, rfl, rfl⟩

/-- C5 witness: a Closed Fist that fired at t0 = 0 is suppressed at
1499 ms and dispatches `escape` at 1501 ms. -/
theorem C5_debounce_window_witness :
    (processFrame 1 1 (0 + (GESTURE_COOLDOWN - 1)) [fistOnlyFrame] ⟨0, none, none⟩).2 = [] ∧
    (processFrame 1 1 (0 + (GESTURE_COOLDOWN - 1)) [fistOnlyFrame]
      ⟨0, none, none⟩).1.lastGestureTime = 0 ∧
    (processFrame 1 1 (0 + (GESTURE_COOLDOWN + 1)) [fistOnlyFrame] ⟨0, none, none⟩).2 =
      [Command.key "escape"] ∧
    (processFrame 1 1 (0 + (GESTURE_COOLDOWN + 1)) [fistOnlyFrame]
      ⟨0, none, none⟩).1.lastGestureTime = 0 + (GESTURE_COOLDOWN + 1) :=
  C5_debounce_window 1 1 0 fistOnlyFrame ⟨0, none, none⟩ rfl
    (by rw [dg_fistOnlyFrame]; decide) (by rw [dg_fistOnlyFrame]; decide)
    (Command.key "escape") (by rw [dg_fistOnlyFrame]; rfl)

/-- The mouse block only ever appends to the command list. -/
lemma mouseBlock_cmds_mono (sw sh : ℚ) (lm : Frame) (g : String) (s : SessionState)
    (cmds : List Command) (c : Command) (hc : c ∈ cmds) :
    c ∈ (mouseBlock sw sh lm g s cmds).2 := by
  unfold mouseBlock
  by_cases h : (g = "Mouse Click" ∨ g = "Mouse Control") <;>
  cases hm : s.lastMousePosition <;>
  simp [h, hm, hc]

/-- Every command the mouse block appends is a cursor move. -/
lemma mouseBlock_cmds_cases (sw sh : ℚ) (lm : Frame) (g : String) (s : SessionState)
    (cmds : List Command) (c : Command)
    (hc : c ∈ (mouseBlock sw sh lm g s cmds).2) :
    c ∈ cmds ∨ ∃ x y, c = Command.moveMouse x y := by
  unfold mouseBlock at hc
  by_cases h : (g = "Mouse Click" ∨ g = "Mouse Control")
  · rw [if_pos h] at hc
    cases hm : s.lastMousePosition <;> rw [hm] at hc <;>
      simp only [List.mem_append, List.mem_singleton] at hc <;>
      rcases hc with hc | hc
    · exact Or.inl hc
    · exact Or.inr ⟨_, _, hc⟩
    · exact Or.inl hc
    · exact Or.inr ⟨_, _, hc⟩
  · rw [if_neg h] at hc
    exact Or.inl hc

/-- The mouse block preserves `lastGestureTime` and `lastPinchDistance`. -/
lemma mouseBlock_state (sw sh : ℚ) (lm : Frame) (g : String) (s : SessionState)
    (cmds : List Command) :
    (mouseBlock sw sh lm g s cmds).1.lastGestureTime = s.lastGestureTime ∧
    (mouseBlock sw sh lm g s cmds).1.lastPinchDistance = s.lastPinchDistance := by
  unfold mouseBlock
  by_cases h : (g = "Mouse Click" ∨ g = "Mouse Control") <;>
  cases hm : s.lastMousePosition <;>
  simp [h, hm]

/-- A hand in "Mouse Control" pose makes the mouse block emit a cursor
move (both with and without a smoothing baseline). -/
lemma mouseBlock_moveMouse (sw sh : ℚ) (lm : Frame) (g : String) (s : SessionState)
    (cmds : List Command) (hg : g = "Mouse Click" ∨ g = "Mouse Control") :
    ∃ x y, Command.moveMouse x y ∈ (mouseBlock sw sh lm g s cmds).2 := by
  unfold mouseBlock
  rw [if_pos hg]
  cases hm : s.lastMousePosition with
  | none => exact ⟨(1 - (lm 8).x) * sw, (lm 8).y * sh, by simp⟩
  | some pos =>
    exact ⟨pos.1 + ((1 - (lm 8).x) * sw - pos.1) * (1 - MOUSE_SMOOTHING),
      pos.2 + ((lm 8).y * sh - pos.2) * (1 - MOUSE_SMOOTHING), by simp⟩

/-- `processHand` only ever appends to the command list. -/
lemma processHand_cmds_mono (sw sh : ℚ) (now : ℤ) (n : ℕ) (lm : Frame)
    (s : SessionState) (cmds : List Command) (pps : List PinchPoint) (c : Command)
    (hc : c ∈ cmds) : c ∈ (processHand sw sh now n lm s cmds pps).2.1 := by
  by_cases h1 : n = 1 <;> by_cases h2 : detectGesture lm = "Mouse Control" <;>
  by_cases h3 : now - (mouseBlock sw sh lm (detectGesture lm) s cmds).1.lastGestureTime >
    GESTURE_COOLDOWN <;>
  simp [processHand, h1, h2, h3] <;>
  first
    | exact mouseBlock_cmds_mono sw sh lm _ s cmds c hc
    | exact Or.inl (mouseBlock_cmds_mono sw sh lm _ s cmds c hc)

/-- With two (or any number other than one) visible hands, `processHand`
appends only cursor-move commands: the keyboard dispatch is skipped. -/
lemma processHand_cmds_cases (sw sh : ℚ) (now : ℤ) (n : ℕ) (lm : Frame)
    (s : SessionState) (cmds : List Command) (pps : List PinchPoint) (c : Command)
    (hn : n ≠ 1) (hc : c ∈ (processHand sw sh now n lm s cmds pps).2.1) :
    c ∈ cmds ∨ ∃ x y, c = Command.moveMouse x y := by
  unfold processHand at hc
  rw [if_neg hn] at hc
  exact mouseBlock_cmds_cases sw sh lm (detectGesture lm) s cmds c hc

/-- A hand in "Mouse Control" pose makes `processHand` emit a cursor move,
no matter the hand count or cooldown state. -/
lemma processHand_moveMouse (sw sh : ℚ) (now : ℤ) (n : ℕ) (lm : Frame)
    (s : SessionState) (cmds : List Command) (pps : List PinchPoint)
    (hg : detectGesture lm = "Mouse Control") :
    ∃ x y, Command.moveMouse x y ∈ (processHand sw sh now n lm s cmds pps).2.1 := by
  obtain ⟨x, y, hxy⟩ := mouseBlock_moveMouse sw sh lm (detectGesture lm) s cmds (Or.inr hg)
  rw [hg] at hxy
  refine ⟨x, y, ?_⟩
  by_cases h1 : n = 1 <;> simp [processHand, hg, h1, hxy]

/-- The per-hand loop only ever appends to the command list. -/
lemma processHands_cmds_mono (sw sh : ℚ) (now : ℤ) (n : ℕ) (hands : List Frame)
    (s : SessionState) (cmds : List Command) (pps : List PinchPoint) (c : Command)
    (hc : c ∈ cmds) : c ∈ (processHands sw sh now n hands s cmds pps).2.1 := by
  induction hands generalizing s cmds pps with
  | nil => exact hc
  | cons lm rest ih =>
    exact ih _ _ _ (processHand_cmds_mono sw sh now n lm s cmds pps c hc)

/-- With a hand count other than one, the per-hand loop emits only
cursor-move commands. -/
lemma processHands_cmds_cases (sw sh : ℚ) (now : ℤ) (n : ℕ) (hands : List Frame)
    (s : SessionState) (cmds : List Command) (pps : List PinchPoint) (c : Command)
    (hn : n ≠ 1) (hc : c ∈ (processHands sw sh now n hands s cmds pps).2.1) :
    c ∈ cmds ∨ ∃ x y, c = Command.moveMouse x y := by
  induction hands generalizing s cmds pps with
  | nil => exact Or.inl hc
  | cons lm rest ih =>
    rcases ih _ _ _ hc with hmem | hmm
    · exact processHand_cmds_cases sw sh now n lm s cmds pps c hn hmem
    · exact Or.inr hmm

/-- Any hand of the frame classified "Mouse Control" makes the per-hand
loop emit a cursor move. -/
lemma processHands_moveMouse (sw sh : ℚ) (now : ℤ) (n : ℕ) (hands : List Frame)
    (s : SessionState) (cmds : List Command) (pps : List PinchPoint) (lm : Frame)
    (hmem : lm ∈ hands) (hg : detectGesture lm = "Mouse Control") :
    ∃ x y, Command.moveMouse x y ∈ (processHands sw sh now n hands s cmds pps).2.1 := by
  induction hands generalizing s cmds pps with
  | nil => cases hmem
  | cons h rest ih =>
    rcases List.mem_cons.mp hmem with heq | hmem2
    · subst heq
      obtain ⟨x, y, hxy⟩ := processHand_moveMouse sw sh now n lm s cmds pps hg
      exact ⟨x, y, processHands_cmds_mono sw sh now n rest _ _ _ _ hxy⟩
    · exact ih _ _ _ hmem2

/-- Commands of the per-hand loop survive into the frame result: the zoom
check afterwards only appends. -/
lemma processFrame_mem_of_loop (sw sh : ℚ) (now : ℤ) (hands : List Frame) (s : SessionState)
    (hlen : hands.length > 0) (c : Command)
    (hc : c ∈ (processHands sw sh now hands.length hands s [] []).2.1) :
    c ∈ (processFrame sw sh now hands s).2 := by
  unfold processFrame
  rw [if_pos hlen]
  rcases hpp : (processHands sw sh now hands.length hands s [] []).2.2 with
    _ | ⟨p0, _ | ⟨p1, _ | ⟨p2, t⟩⟩⟩
  · simp only [hpp]; exact hc
  · simp only [hpp]; exact hc
  · simp only [hpp]
    by_cases hcool :
        now - (processHands sw sh now hands.length hands s [] []).1.lastGestureTime >
          GESTURE_COOLDOWN
    · rw [if_pos hcool]
      rcases hlpd : (processHands sw sh now hands.length hands s [] []).1.lastPinchDistance with
        _ | last
      · simp only [hlpd]; exact hc
      · simp only [hlpd]
        split_ifs <;> simp [hc]
    · rw [if_neg hcool]; exact hc
  · simp only [hpp]; exact hc

/-- C6: every processed frame containing a hand classified "Mouse Control"
emits a cursor-move command, for every session state and frame time — in
particular independently of `now - lastGestureTime`, i.e. in READY and in
COOLING state alike. -/
theorem C6_mouse_bypass (sw sh : ℚ) (now : ℤ) (hands : List Frame) (s : SessionState)
    (lm : Frame) (hmem : lm ∈ hands) (hg : detectGesture lm = "Mouse Control") :
    ∃ x y, Command.moveMouse x y ∈ (processFrame sw sh now hands s).2 := by
  have hlen : hands.length > 0 := by
    cases hands
    · cases hmem
    · simp
  obtain ⟨x, y, hxy⟩ := processHands_moveMouse sw sh now hands.length hands s [] [] lm hmem hg
  exact ⟨x, y, processFrame_mem_of_loop sw sh now hands s hlen _ hxy⟩

/-- C6 witness: a Mouse Control hand at frame time 0 with the cooldown
timestamp also 0 (so the cooldown gate is closed) still emits a cursor
move. -/
theorem C6_mouse_bypass_witness :
    ∃ x y, Command.moveMouse x y ∈
      (processFrame 1 1 0 [mouseControlPinchFrame] ⟨0, none, none⟩).2 :=
  C6_mouse_bypass 1 1 0 [mouseControlPinchFrame] ⟨0, none, none⟩ mouseControlPinchFrame
    (List.mem_singleton.mpr rfl) dg_mouseControlPinchFrame

/-- Every command a frame emits is either a command of the per-hand loop
or one of the two zoom keys appended by the zoom check. -/
lemma processFrame_cmds_cases (sw sh : ℚ) (now : ℤ) (hands : List Frame) (s : SessionState)
    (hlen : hands.length > 0) (c : Command)
    (hc : c ∈ (processFrame sw sh now hands s).2) :
    c ∈ (processHands sw sh now hands.length hands s [] []).2.1 ∨
      c = Command.key "zoom-in" ∨ c = Command.key "zoom-out" := by
  unfold processFrame at hc
  rw [if_pos hlen] at hc
  rcases hpp : (processHands sw sh now hands.length hands s [] []).2.2 with
    _ | ⟨p0, _ | ⟨p1, _ | ⟨p2, t⟩⟩⟩
  · simp only [hpp] at hc; exact Or.inl hc
  · simp only [hpp] at hc; exact Or.inl hc
  · simp only [hpp] at hc
    by_cases hcool :
        now - (processHands sw sh now hands.length hands s [] []).1.lastGestureTime >
          GESTURE_COOLDOWN
    · rw [if_pos hcool] at hc
      rcases hlpd : (processHands sw sh now hands.length hands s [] []).1.lastPinchDistance with
        _ | last
      · simp only [hlpd] at hc; exact Or.inl hc
      · simp only [hlpd] at hc
        by_cases hj : |pinchPointsDistance p0 p1 - last| > 0.03
        · rw [if_pos hj] at hc
          simp only [List.mem_append, List.mem_singleton] at hc
          rcases hc with hc | rfl
          · exact Or.inl hc
          · right; split_ifs <;> simp
        · rw [if_neg hj] at hc; exact Or.inl hc
    · rw [if_neg hcool] at hc; exact Or.inl hc
  · simp only [hpp] at hc; exact Or.inl hc

/-- C10: on a frame with two visible hands, every emitted command is a
cursor move or one of the two zoom keys — the single-hand discrete path
(cooldown check plus `triggerKeyboardAction`) never runs, so no discrete
key press and no mouse click is dispatched. -/
theorem C10_two_hand_gating (sw sh : ℚ) (now : ℤ) (h1 h2 : Frame) (s : SessionState)
    (c : Command) (hc : c ∈ (processFrame sw sh now [h1, h2] s).2) :
    (∃ x y, c = Command.moveMouse x y) ∨ c = Command.key "zoom-in" ∨
      c = Command.key "zoom-out" := by
  rcases processFrame_cmds_cases sw sh now [h1, h2] s (by simp) c hc with hmem | hz | hz
  · rcases processHands_cmds_cases sw sh now ([h1, h2].length) [h1, h2] s [] [] c
      (by simp) hmem with h | h
    · cases h
    · exact Or.inl h
  · exact Or.inr (Or.inl hz)
  · exact Or.inr (Or.inr hz)

/-- Full evaluation of a frame with exactly two hands classified Pinch or
Zoom Pinch: no per-hand command is emitted, the mouse baseline is cleared,
and the zoom check runs on the two collected pinch points — gated by the
cooldown, seeding the thumb-to-thumb distance baseline when absent, and
otherwise emitting one zoom key exactly when the distance delta exceeds
the 0.03 jitter floor. -/
lemma processFrame_two_pinch (sw sh : ℚ) (now : ℤ) (h1 h2 : Frame) (s : SessionState)
    (hA : detectGesture h1 = "Pinch" ∨ detectGesture h1 = "Zoom Pinch")
    (hB : detectGesture h2 = "Pinch" ∨ detectGesture h2 = "Zoom Pinch") :
    processFrame sw sh now [h1, h2] s =
      if now - s.lastGestureTime > GESTURE_COOLDOWN then
        match s.lastPinchDistance with
        | none =>
          ({ lastGestureTime := s.lastGestureTime,
             lastPinchDistance := some (pinchPointsDistance ⟨h1 4, h1 8⟩ ⟨h2 4, h2 8⟩),
             lastMousePosition := none }, [])
        | some last =>
          if |pinchPointsDistance ⟨h1 4, h1 8⟩ ⟨h2 4, h2 8⟩ - last| > 0.03 then
            ({ lastGestureTime := now,
               lastPinchDistance := some (pinchPointsDistance ⟨h1 4, h1 8⟩ ⟨h2 4, h2 8⟩),
               lastMousePosition := none },
             [Command.key (if pinchPointsDistance ⟨h1 4, h1 8⟩ ⟨h2 4, h2 8⟩ - last > 0
                then "zoom-in" else "zoom-out")])
          else
            ({ s with lastMousePosition := none }, [])
      else
        ({ s with lastMousePosition := none }, []) := by
  have hA1 : detectGesture h1 ≠ "Mouse Click" := by
    rcases hA with h | h <;> rw [h] <;> decide
  have hA2 : detectGesture h1 ≠ "Mouse Control" := by
    rcases hA with h | h <;> rw [h] <;> decide
  have hB1 : detectGesture h2 ≠ "Mouse Click" := by
    rcases hB with h | h <;> rw [h] <;> decide
  have hB2 : detectGesture h2 ≠ "Mouse Control" := by
    rcases hB with h | h <;> rw [h] <;> decide
  by_cases hc : now - s.lastGestureTime > GESTURE_COOLDOWN <;>
  rcases hbase : s.lastPinchDistance with _ | last <;>
  simp [processFrame, processHands, processHand, mouseBlock, hA, hB, hA1, hA2, hB1, hB2,
    hc, hbase]

/-- Closed-form square-root evaluation helper for concrete distances. -/
lemma pinchPointsDistance_eq (p0 p1 : PinchPoint) (r : ℝ) (h : 0 ≤ r)
    (hq : (((p0.thumb.x - p1.thumb.x)^2 + (p0.thumb.y - p1.thumb.y)^2 : ℚ) : ℝ) = r^2) :
    pinchPointsDistance p0 p1 = r := by
  unfold pinchPointsDistance
  rw [hq]
  exact Real.sqrt_sq h

/-- In the zoom scenario (two pinching hands whose thumb tips are 0.7
apart, baseline 0.6, cooldown elapsed) the frame emits exactly one
Zoom-In key and re-baselines. -/
lemma zoomScenario_eval :
    processFrame 1 1 5000 [pinchA, pinchB] ⟨0, some 0.6, none⟩ =
      (⟨5000, some 0.7, none⟩, [Command.key "zoom-in"]) := by
  have hd : pinchPointsDistance ⟨pinchA 4, pinchA 8⟩ ⟨pinchB 4, pinchB 8⟩ = 0.7 :=
    pinchPointsDistance_eq _ _ _ (by norm_num) (by norm_num +decide [pinchA, pinchB])
  have he := processFrame_two_pinch 1 1 5000 pinchA pinchB ⟨0, some 0.6, none⟩
    (Or.inl dg_pinchA) (Or.inl dg_pinchB)
  rw [if_pos (by decide)] at he
  rw [hd] at he
  simp only [show (⟨0, some (0.6:ℝ), none⟩ : SessionState).lastPinchDistance = some 0.6
    from rfl] at he
  rw [if_pos (show (0.03:ℝ) < |0.7 - 0.6| from by rw [abs_of_pos] <;> norm_num)] at he
  rw [if_pos (show (0.7:ℝ) - 0.6 > 0 from by norm_num)] at he
  exact he

/-- C10 witness: in the two-hand zoom scenario the emitted Zoom-In key is
indeed covered by the gating statement (it is a zoom key, not a discrete
key press or click). -/
theorem C10_two_hand_gating_witness :
    (∃ x y, Command.key "zoom-in" = Command.moveMouse x y) ∨
    Command.key "zoom-in" = Command.key "zoom-in" ∨
    Command.key "zoom-in" = Command.key "zoom-out" :=
  C10_two_hand_gating 1 1 5000 pinchA pinchB ⟨0, some 0.6, none⟩ (Command.key "zoom-in")
    (by rw [zoomScenario_eval]; simp)

/-- Transcription of the spec's aggregator wording (its zoom algorithm):
the pinch midpoint of a hand is the average of its thumb tip and index
tip.  Stated for comparison with what the source actually computes. -/
def specMidpoint (lm : Frame) : Landmark :=
  ⟨((lm 4).x + (lm 8).x) / 2, ((lm 4).y + (lm 8).y) / 2⟩

/-- Transcription of the spec's aggregator wording: the zoom metric is the
distance between the two hands' pinch midpoints.  The source instead
measures thumb tip to thumb tip (`pinchPointsDistance`). -/
noncomputable def specMidpointDistance (h1 h2 : Frame) : ℝ :=
  Real.sqrt ((distSq (specMidpoint h1) (specMidpoint h2) : ℚ) : ℝ)

/-- Closed-form square-root evaluation helper for the spec-side metric. -/
lemma specMidpointDistance_eq (h1 h2 : Frame) (r : ℝ) (h : 0 ≤ r)
    (hq : ((distSq (specMidpoint h1) (specMidpoint h2) : ℚ) : ℝ) = r^2) :
    specMidpointDistance h1 h2 = r := by
  unfold specMidpointDistance
  rw [hq]
  exact Real.sqrt_sq h

/-- C3 counterexample: two hands both classified Pinch, cooldown elapsed,
baseline `lastPinchDistance = 0.6`.  The distance between the two pinch
MIDPOINTS is 0.65, so by the claim (midpoint metric, jitter floor 0.03)
one Zoom-In command should be emitted — but the source measures thumb tip
to thumb tip, which is exactly 0.6, so the frame emits nothing and the
baseline stays 0.6. -/
theorem C3_zoom_cex :
    specMidpointDistance pinchA pinchBNear - 0.6 > 0.03 ∧
    detectGesture pinchA = "Pinch" ∧ detectGesture pinchBNear = "Pinch" ∧
    (processFrame 1 1 5000 [pinchA, pinchBNear] ⟨0, some 0.6, none⟩).2 = [] ∧
    (processFrame 1 1 5000 [pinchA, pinchBNear] ⟨0, some 0.6, none⟩).1.lastPinchDistance =
      some 0.6 := by
  have hmid : specMidpointDistance pinchA pinchBNear = 0.65 :=
    specMidpointDistance_eq _ _ _ (by norm_num)
      (by norm_num +decide [specMidpoint, distSq, pinchA, pinchBNear])
  have hd : pinchPointsDistance ⟨pinchA 4, pinchA 8⟩ ⟨pinchBNear 4, pinchBNear 8⟩ = 0.6 :=
    pinchPointsDistance_eq _ _ _ (by norm_num) (by norm_num +decide [pinchA, pinchBNear])
  have he := processFrame_two_pinch 1 1 5000 pinchA pinchBNear ⟨0, some 0.6, none⟩
    (Or.inl dg_pinchA) (Or.inl dg_pinchBNear)
  rw [if_pos (by decide)] at he
  rw [hd] at he
  simp only [show (⟨0, some (0.6:ℝ), none⟩ : SessionState).lastPinchDistance = some 0.6
    from rfl] at he
  rw [if_neg (show ¬((0.03:ℝ) < |0.6 - 0.6|) from by norm_num)] at he
  refine ⟨by rw [hmid]; norm_num, dg_pinchA, dg_pinchBNear, ?_, ?_⟩ <;> rw [he]

/-- C3 (amended): for a frame with exactly two hands classified Pinch or
Zoom Pinch, WITH the cooldown gate open and a baseline present, the
aggregator compares the distance between the two THUMB TIPS (not the pinch
midpoints) against the baseline: if the delta magnitude exceeds the 0.03
jitter floor it emits exactly one Zoom-In (positive delta) or Zoom-Out
(negative delta) command and updates both the baseline and the cooldown
timestamp; otherwise it emits nothing and leaves both unchanged. -/
theorem C3_zoom_amended (sw sh : ℚ) (now : ℤ) (h1 h2 : Frame) (s : SessionState) (last : ℝ)
    (hA : detectGesture h1 = "Pinch" ∨ detectGesture h1 = "Zoom Pinch")
    (hB : detectGesture h2 = "Pinch" ∨ detectGesture h2 = "Zoom Pinch")
    (hcool : now - s.lastGestureTime > GESTURE_COOLDOWN)
    (hbase : s.lastPinchDistance = some last) :
    (|pinchPointsDistance ⟨h1 4, h1 8⟩ ⟨h2 4, h2 8⟩ - last| > 0.03 →
      (processFrame sw sh now [h1, h2] s).2 =
        [Command.key (if pinchPointsDistance ⟨h1 4, h1 8⟩ ⟨h2 4, h2 8⟩ - last > 0
          then "zoom-in" else "zoom-out")] ∧
      (processFrame sw sh now [h1, h2] s).1.lastPinchDistance =
        some (pinchPointsDistance ⟨h1 4, h1 8⟩ ⟨h2 4, h2 8⟩) ∧
      (processFrame sw sh now [h1, h2] s).1.lastGestureTime = now) ∧
    (|pinchPointsDistance ⟨h1 4, h1 8⟩ ⟨h2 4, h2 8⟩ - last| ≤ 0.03 →
      (processFrame sw sh now [h1, h2] s).2 = [] ∧
      (processFrame sw sh now [h1, h2] s).1.lastPinchDistance = some last ∧
      (processFrame sw sh now [h1, h2] s).1.lastGestureTime = s.lastGestureTime) := by
  rw [processFrame_two_pinch sw sh now h1 h2 s hA hB, if_pos hcool]
  simp only [hbase]
  constructor
  · intro hj
    rw [if_pos hj]
    exact ⟨rfl, rfl, rfl⟩
  · intro hj
    rw [if_neg (not_lt.mpr hj)]
    exact ⟨rfl, by simp [hbase], rfl⟩

/-- C3 witness: two pinching hands moving apart (thumb distance 0.7
against baseline 0.6, delta 0.1 above the jitter floor) with the cooldown
open emit exactly one Zoom-In command and re-stamp the state. -/
theorem C3_zoom_amended_witness :
    |pinchPointsDistance ⟨pinchA 4, pinchA 8⟩ ⟨pinchB 4, pinchB 8⟩ - 0.6| > 0.03 ∧
    (processFrame 1 1 5000 [pinchA, pinchB] ⟨0, some 0.6, none⟩).2 = [Command.key "zoom-in"] ∧
    (processFrame 1 1 5000 [pinchA, pinchB] ⟨0, some 0.6, none⟩).1.lastGestureTime = 5000 := by
  have hd : pinchPointsDistance ⟨pinchA 4, pinchA 8⟩ ⟨pinchB 4, pinchB 8⟩ = 0.7 :=
    pinchPointsDistance_eq _ _ _ (by norm_num) (by norm_num +decide [pinchA, pinchB])
  have habs : |pinchPointsDistance ⟨pinchA 4, pinchA 8⟩ ⟨pinchB 4, pinchB 8⟩ - 0.6| > 0.03 := by
    rw [hd, abs_of_pos] <;> norm_num
  have h := (C3_zoom_amended 1 1 5000 pinchA pinchB ⟨0, some 0.6, none⟩ 0.6
    (Or.inl dg_pinchA) (Or.inl dg_pinchB) (by decide) rfl).1 habs
  refine ⟨habs, ?_, h.2.2⟩
  rw [h.1, hd]
  norm_num
